import Mathlib

/-!
Verification of the query validation/execution engine of `backend/db_manager.py`.

The Python `DatabaseManager` is shallowly embedded: the database driver
(SQLAlchemy engine/connection) is an oracle parameter `Driver σ` over an
abstract committed-database-state type `σ`; each public operation is a total
Lean function that threads the committed state, the engine cache, and a trace
of effects (statements executed, transaction begin/commit/rollback events).
Python exceptions are modelled with `Except PyErr`; the `try/except` blocks of
the source become explicit matches on the error kind (SQLAlchemyError vs any
other exception).
-/

/-- Python scalar values, as returned by dialect introspection for a column
default; used to model Python truthiness (`if column.get('default')`). -/
inductive PyVal where
  | pyNone : PyVal
  | pyInt (n : Int) : PyVal
  | pyStr (s : String) : PyVal
  | pyBool (b : Bool) : PyVal
deriving Repr, DecidableEq

/-- Python truthiness of a scalar: `None`, `0`, `""` and `False` are falsy. -/
def PyVal.truthy : PyVal → Bool
  | .pyNone => false
  | .pyInt n => n ≠ 0
  | .pyStr s => s ≠ ""
  | .pyBool b => b

/-- Python `str()` of a scalar. -/
def PyVal.pyStrOf : PyVal → String
  | .pyNone => "None"
  | .pyInt n => toString n
  | .pyStr s => s
  | .pyBool true => "True"
  | .pyBool false => "False"

/-- An exception escaping a driver call: either a `SQLAlchemyError` (with the
optional `.orig` driver-level message and the full `str(e)` text) or any
other Python exception (`ValueError`, `KeyError`, ...). -/
inductive PyErr where
  | sqlalchemy (orig : Option String) (full : String) : PyErr
  | otherExc (msg : String) : PyErr
deriving Repr, DecidableEq

/-- Whether the exception is a `SQLAlchemyError` (matched by the narrower
`except SQLAlchemyError` clauses of the source). -/
def PyErr.isSQLAlchemy : PyErr → Bool
  | .sqlalchemy _ _ => true
  | .otherExc _ => false

/-- Python `str(e)` of an exception. -/
def PyErr.str : PyErr → String
  | .sqlalchemy _ full => full
  | .otherExc m => m

/-- The source's `str(e.orig) if hasattr(e, 'orig') else str(e)` for a
`SQLAlchemyError`. -/
def PyErr.origOrStr : PyErr → String
  | .sqlalchemy (some o) _ => o
  | .sqlalchemy none full => full
  | .otherExc m => m

/-- The source's message cleanup: `if '\n' in error_msg: error_msg =
error_msg.split('\n')[0]`, i.e. everything before the first newline (the
whole string when there is none). -/
def firstLine (s : String) : String :=
  ⟨s.data.takeWhile (fun c => c ≠ '\n')⟩

/-- Python `str.lower()` (ASCII range, which covers the SQL keywords the
source compares). -/
def pyLower (s : String) : String :=
  ⟨s.data.map Char.toLower⟩

/-- Python `str.startswith(pre)` on character lists. -/
def listStartsWith : List Char → List Char → Bool
  | _, [] => true
  | [], _ :: _ => false
  | c :: cs, p :: ps => c = p && listStartsWith cs ps

/-- Python `str.startswith`. -/
def pyStartsWith (s pre : String) : Bool :=
  listStartsWith s.data pre.data

/-- Python `sql_query.rstrip(';')`: drop every trailing `';'` character. -/
def rstripSemis (s : String) : String :=
  ⟨(s.data.reverse.dropWhile (fun c => c = ';')).reverse⟩

/-- A character matched by the regex class `\s` and stripped by `str.strip()`
(Python, ASCII range). -/
def isPySpace (c : Char) : Bool :=
  c = ' ' || c = '\t' || c = '\n' || c = '\r' || c = '\x0b' || c = '\x0c'

/-- Python `str.strip()`: drop leading and trailing whitespace. -/
def pyStrip (s : String) : String :=
  ⟨((s.data.dropWhile isPySpace).reverse.dropWhile isPySpace).reverse⟩

/-- Python `col.replace('_', ' ')` for the single-character pattern the
source uses. -/
def replaceUnderscores (s : String) : String :=
  ⟨s.data.map (fun c => if c = '_' then ' ' else c)⟩

/-- Case-insensitive match of the literal `limit` at the head of a character
list (the regex runs with `re.IGNORECASE`), returning the rest on success. -/
def matchLimitWord (l : List Char) : Option (List Char) :=
  if (l.take 5).map Char.toLower = ['l', 'i', 'm', 'i', 't'] then
    some (l.drop 5)
  else
    none

/-- Match of the regex `\s+limit\s+\d+\s*` (case-insensitive) at the head of a
character list. All four pieces use disjoint character classes, so greedy
matching without backtracking is exact. Returns the rest after the match. -/
def matchLimitClause (l : List Char) : Option (List Char) :=
  let sp₁ := l.takeWhile isPySpace
  if sp₁.isEmpty then none
  else
    match matchLimitWord (l.dropWhile isPySpace) with
    | none => none
    | some r₁ =>
      let sp₂ := r₁.takeWhile isPySpace
      if sp₂.isEmpty then none
      else
        let r₂ := r₁.dropWhile isPySpace
        let ds := r₂.takeWhile Char.isDigit
        if ds.isEmpty then none
        else
          some ((r₂.dropWhile Char.isDigit).dropWhile isPySpace)

/-- Fuel-bounded scan implementing `re.sub` with the pattern above and
replacement `' '`: at each position try the pattern; on a match emit one space
and resume after it, otherwise keep the character. Every match consumes at
least one character, so fuel `= length` never runs out. -/
def subLimitAux : Nat → List Char → List Char
  | 0, l => l
  | _ + 1, [] => []
  | fuel + 1, c :: cs =>
    match matchLimitClause (c :: cs) with
    | some rest => ' ' :: subLimitAux fuel rest
    | none => c :: subLimitAux fuel cs

/-- The source's `re.sub(r'\s+limit\s+\d+\s*', ' ', sql_query,
flags=re.IGNORECASE)`. -/
def reSubLimit (s : String) : String :=
  ⟨subLimitAux s.length s.data⟩

/-- Python `needle in hay` on strings: substring containment. -/
def containsSubstr (hay needle : String) : Bool :=
  decide (needle.data <:+: hay.data)

/-- Python `str.title()` (ASCII): an alphabetic character is uppercased when
the previous character is not alphabetic, lowercased otherwise. -/
def pyTitle (s : String) : String :=
  ⟨(s.data.foldl
      (fun (acc : List Char × Bool) ch =>
        if ch.isAlpha then
          ((if acc.2 then ch.toLower else ch.toUpper) :: acc.1, true)
        else
          (ch :: acc.1, false))
      ([], false)).1.reverse⟩

/-- A connector descriptor, the dictionary the calling layer supplies
(`id`, `db_type`, `host`, `port`, `database`, `username`, `password`,
`connection_string`). Discrete fields are strings (`port` already rendered,
as the f-string would); `connection_string` is optional. -/
structure Connector where
  id : String
  db_type : String
  host : String
  port : String
  database : String
  username : String
  password : String
  connection_string : Option String
deriving Repr, DecidableEq

/-- The source's `DatabaseManager.get_connection_string`: a truthy
`connection_string` is returned verbatim; otherwise dispatch on `db_type`,
raising `ValueError` (a non-SQLAlchemy exception) on an unknown dialect. -/
def get_connection_string (c : Connector) : Except PyErr String :=
  if (match c.connection_string with
      | some s => decide (s ≠ "")
      | none => false) = true then
    Except.ok (c.connection_string.getD "")
  else if c.db_type = "sqlite" then
    Except.ok ("sqlite:///" ++ c.database)
  else if c.db_type = "postgresql" then
    Except.ok ("postgresql://" ++ c.username ++ ":" ++ c.password ++ "@" ++
      c.host ++ ":" ++ c.port ++ "/" ++ c.database)
  else if c.db_type = "mysql" then
    Except.ok ("mysql+pymysql://" ++ c.username ++ ":" ++ c.password ++ "@" ++
      c.host ++ ":" ++ c.port ++ "/" ++ c.database)
  else
    Except.error (PyErr.otherExc ("Unsupported database type: " ++ c.db_type))

/-- An engine handle: `create_engine(connection_string, pool_pre_ping=True,
pool_recycle=3600)` is modelled as a handle remembering the connection string
it was built from (pre-ping and recycling live inside the driver layer). -/
structure Engine where
  connStr : String
deriving Repr, DecidableEq

/-- The mutable state of a `DatabaseManager`: the `self._engines` dict,
as an association list keyed by connector id. -/
structure Manager where
  engines : List (String × Engine)
deriving Repr, DecidableEq

/-- Lookup of `self._engines[connector_id]`. -/
def findEngine : List (String × Engine) → String → Option Engine
  | [], _ => none
  | (k, e) :: rest, cid => if k = cid then some e else findEngine rest cid

/-- The cached connector ids (the dict's key set, in insertion order). -/
def Manager.keys (m : Manager) : List String :=
  m.engines.map Prod.fst

/-- The source's `DatabaseManager.get_engine`: return the cached engine for
`connector_id`, building (from the descriptor) and inserting one first on a
cache miss. Propagates the `ValueError` of `get_connection_string`. -/
def get_engine (m : Manager) (connector_id : String) (c : Connector) :
    Except PyErr (Engine × Manager) :=
  match findEngine m.engines connector_id with
  | some e => Except.ok (e, m)
  | none =>
    match get_connection_string c with
    | Except.error err => Except.error err
    | Except.ok cs =>
      Except.ok (Engine.mk cs, Manager.mk (m.engines ++ [(connector_id, Engine.mk cs)]))

/-- Query classes produced by the leading-keyword dispatch shared by
`validate_query` and `execute_query`: `query_lower = sql_query.strip().lower()`
followed by `startswith` tests. The four verb prefixes start with distinct
characters, so the chained tests of the source are exactly this function. -/
inductive QueryType where
  | SELECT | INSERT | UPDATE | DELETE | DDL_OR_OTHER
deriving Repr, DecidableEq

/-- Leading-keyword classification of a SQL string, after `strip().lower()`. -/
def classify (sql : String) : QueryType :=
  let ql := pyLower (pyStrip sql)
  if pyStartsWith ql "select" then QueryType.SELECT
  else if pyStartsWith ql "insert" then QueryType.INSERT
  else if pyStartsWith ql "update" then QueryType.UPDATE
  else if pyStartsWith ql "delete" then QueryType.DELETE
  else QueryType.DDL_OR_OTHER

/-- The `query_type` string the source reports for a DML verb. -/
def QueryType.verbName : QueryType → String
  | .SELECT => "SELECT"
  | .INSERT => "INSERT"
  | .UPDATE => "UPDATE"
  | .DELETE => "DELETE"
  | .DDL_OR_OTHER => "DDL/Other"

/-- A result row, as the dict `dict(row._mapping)`. -/
abbrev Row := List (String × String)

/-- What one successful driver `execute` returns: the new (uncommitted)
database state, `result.rowcount`, `result.keys()` and the fetched rows. -/
structure ExecOut (σ : Type) where
  state : σ
  rowcount : Nat
  colKeys : List String
  rows : List Row
deriving Repr, DecidableEq

/-- A column dict as returned by `inspector.get_columns` (`.get` lookups with
their defaults are modelled by `Option` fields). -/
structure InspCol where
  name : String
  colType : String
  nullable : Option Bool
  dfault : PyVal
  primary_key : Option Bool
deriving Repr, DecidableEq

/-- A foreign-key dict as returned by `inspector.get_foreign_keys`. -/
structure InspFK where
  constrained_columns : List String
  referred_table : String
  referred_columns : List String
deriving Repr, DecidableEq

/-- One table as seen by the inspector: name, columns, the pk constraint's
`constrained_columns`, and foreign keys. -/
structure InspTable where
  name : String
  columns : List InspCol
  pk_constrained : List String
  fks : List InspFK
deriving Repr, DecidableEq

/-- The driver oracle for one engine: connecting, executing a statement
against a database state, compiling a statement (`text(sql).compile(engine)`)
and schema introspection. Each can raise. -/
structure Driver (σ : Type) where
  connect : Except PyErr Unit
  exec : String → σ → Except PyErr (ExecOut σ)
  compile : String → Except PyErr Unit
  inspect : σ → Except PyErr (List InspTable)

/-- Effects visible to the target database during one operation: statements
handed to the driver, and transaction begin/commit/rollback events. -/
inductive Ev where
  | execStmt (sql : String)
  | beginTx
  | commitTx
  | rollbackTx
deriving Repr, DecidableEq

/-- The dict returned by `validate_query`. -/
structure ValidationResult where
  valid : Bool
  message : String
  query_type : Option String
  warning : Option String
  error : Option String
deriving Repr, DecidableEq

/-- Output of one operation: the result dict, the updated engine cache, the
final committed database state, and the driver-visible events in order. -/
structure OpOut (σ ρ : Type) where
  res : ρ
  mgr : Manager
  db : σ
  events : List Ev
deriving Repr, DecidableEq

/-- The two outer `except` clauses of `validate_query`: `SQLAlchemyError`
gets its message cleaned to the first line of `e.orig`/`str(e)`; any other
exception gets the `Validation error:` prefix. -/
def validateCatch (e : PyErr) : ValidationResult :=
  match e with
  | PyErr.sqlalchemy _ _ =>
    { valid := false, message := firstLine e.origOrStr, query_type := none,
      warning := none, error := some e.str }
  | PyErr.otherExc m =>
    { valid := false, message := "Validation error: " ++ m, query_type := none,
      warning := none, error := some m }

/-- The success dict of the SELECT branch of `validate_query`. -/
def validSelectResult : ValidationResult :=
  { valid := true, message := "Query is valid (dry-run successful)",
    query_type := some "SELECT", warning := none, error := none }

/-- The first dry-run attempt of `validate_query` for a SELECT:
`f"SELECT * FROM ({sql_query.rstrip(';')}) AS validation_subquery LIMIT 0"`. -/
def wrappedDryRun (sql_query : String) : String :=
  "SELECT * FROM (" ++ rstripSemis sql_query ++ ") AS validation_subquery LIMIT 0"

/-- The second dry-run attempt of `validate_query` for a SELECT: when the
lowered query contains `limit`, strip it by pattern substitution first; in
both cases append a direct `LIMIT 0`. -/
def fallbackDryRun (sql_query : String) : String :=
  if containsSubstr (pyLower (pyStrip sql_query)) "limit" then
    rstripSemis (reSubLimit sql_query) ++ " LIMIT 0"
  else
    rstripSemis sql_query ++ " LIMIT 0"

/-- The source's `DatabaseManager.validate_query`. SELECT statements are
dry-run as a wrapped subquery with `LIMIT 0`, falling back (on a
`SQLAlchemyError` only) to stripping any `LIMIT n` and appending `LIMIT 0`
directly; DML statements are executed inside an explicit transaction that is
rolled back on success and on error; everything else is only compiled. The
committed state `db` is returned unchanged on every path that does not
commit (validation never commits). -/
def validate_query {σ : Type} (dmap : String → Driver σ) (m : Manager)
    (sql_query : String) (c : Connector) (db : σ) :
    OpOut σ ValidationResult :=
  match get_engine m c.id c with
  | Except.error e => { res := validateCatch e, mgr := m, db := db, events := [] }
  | Except.ok (eng, m') =>
    let d := dmap eng.connStr
    match d.connect with
    | Except.error e => { res := validateCatch e, mgr := m', db := db, events := [] }
    | Except.ok _ =>
      match classify sql_query with
      | QueryType.SELECT =>
        let dry₁ := wrappedDryRun sql_query
        match d.exec dry₁ db with
        | Except.ok _ =>
          { res := validSelectResult, mgr := m', db := db,
            events := [Ev.execStmt dry₁] }
        | Except.error e₁ =>
          if e₁.isSQLAlchemy then
            let dry₂ := fallbackDryRun sql_query
            match d.exec dry₂ db with
            | Except.ok _ =>
              { res := validSelectResult, mgr := m', db := db,
                events := [Ev.execStmt dry₁, Ev.execStmt dry₂] }
            | Except.error e₂ =>
              { res := validateCatch e₂, mgr := m', db := db,
                events := [Ev.execStmt dry₁, Ev.execStmt dry₂] }
          else
            { res := validateCatch e₁, mgr := m', db := db,
              events := [Ev.execStmt dry₁] }
      | QueryType.DDL_OR_OTHER =>
        match d.compile sql_query with
        | Except.ok _ =>
          { res :=
              { valid := true,
                message := "Query syntax appears valid (limited validation for DDL)",
                query_type := some "DDL/Other",
                warning := some "DDL queries cannot be fully validated without execution.",
                error := none },
            mgr := m', db := db, events := [] }
        | Except.error e =>
          { res := validateCatch e, mgr := m', db := db, events := [] }
      | qt =>
        match d.exec sql_query db with
        | Except.ok _ =>
          { res :=
              { valid := true,
                message := "Query syntax is valid (dry-run successful)",
                query_type := some qt.verbName,
                warning := some "This query will modify data. Use with caution.",
                error := none },
            mgr := m', db := db,
            events := [Ev.beginTx, Ev.execStmt sql_query, Ev.rollbackTx] }
        | Except.error e =>
          { res := validateCatch e, mgr := m', db := db,
            events := [Ev.beginTx, Ev.execStmt sql_query, Ev.rollbackTx] }

/-- The dict returned by `execute_query` (all shape variants share it;
fields a variant does not set are `none`). -/
structure ExecResult where
  success : Bool
  message : Option String
  columns : Option (List (String × String))
  data : Option (List Row)
  row_count : Option Nat
  affected_rows : Option Nat
  query_type : Option String
  dry_run : Option Bool
  warning : Option String
  error : Option String
deriving Repr, DecidableEq

/-- An `ExecResult` with every field empty, to be updated per branch. -/
def ExecResult.base : ExecResult :=
  { success := false, message := none, columns := none, data := none,
    row_count := none, affected_rows := none, query_type := none,
    dry_run := none, warning := none, error := none }

/-- The two outer `except` clauses of `execute_query`. -/
def executeCatch (e : PyErr) : ExecResult :=
  match e with
  | PyErr.sqlalchemy _ _ =>
    { ExecResult.base with
      success := false,
      error := some (firstLine e.origOrStr),
      message := some ("Failed to execute query: " ++ firstLine e.origOrStr) }
  | PyErr.otherExc m =>
    { ExecResult.base with
      success := false,
      error := some m,
      message := some ("Unexpected error: " ++ m) }

/-- The source's `DatabaseManager.execute_query`. SELECT statements get
`LIMIT {lim}` appended when the lowered query does not contain `limit`;
DML statements run in an explicit transaction that is rolled back when
`dry_run` (or on error) and committed otherwise; DDL refuses `dry_run` and
otherwise executes and commits. The committed state advances only on the
commit paths. -/
def execute_query {σ : Type} (dmap : String → Driver σ) (m : Manager)
    (sql_query : String) (c : Connector) (lim : Nat) (dry_run : Bool)
    (db : σ) : OpOut σ ExecResult :=
  match get_engine m c.id c with
  | Except.error e => { res := executeCatch e, mgr := m, db := db, events := [] }
  | Except.ok (eng, m') =>
    let d := dmap eng.connStr
    match d.connect with
    | Except.error e => { res := executeCatch e, mgr := m', db := db, events := [] }
    | Except.ok _ =>
      match classify sql_query with
      | QueryType.SELECT =>
        let sql' :=
          if containsSubstr (pyLower (pyStrip sql_query)) "limit" then sql_query
          else rstripSemis sql_query ++ " LIMIT " ++ toString lim
        match d.exec sql' db with
        | Except.ok o =>
          { res :=
              { ExecResult.base with
                success := true,
                columns := some (o.colKeys.map
                  (fun col => (col, pyTitle (replaceUnderscores col)))),
                data := some o.rows, row_count := some o.rows.length,
                query_type := some "SELECT", dry_run := some false },
            mgr := m', db := db, events := [Ev.execStmt sql'] }
        | Except.error e =>
          { res := executeCatch e, mgr := m', db := db,
            events := [Ev.execStmt sql'] }
      | QueryType.DDL_OR_OTHER =>
        if dry_run then
          { res :=
              { ExecResult.base with
                success := false,
                message := some "Dry-run mode is not supported for DDL queries",
                query_type := some "DDL", dry_run := some true },
            mgr := m', db := db, events := [] }
        else
          match d.exec sql_query db with
          | Except.ok o =>
            { res :=
                { ExecResult.base with
                  success := true,
                  message := some "Query executed successfully",
                  query_type := some "DDL/Other", dry_run := some false },
              mgr := m', db := o.state,
              events := [Ev.execStmt sql_query, Ev.commitTx] }
          | Except.error e =>
            { res := executeCatch e, mgr := m', db := db,
              events := [Ev.execStmt sql_query] }
      | qt =>
        match d.exec sql_query db with
        | Except.ok o =>
          if dry_run then
            { res :=
                { ExecResult.base with
                  success := true,
                  message := some ("Dry-run successful: " ++ toString o.rowcount ++
                    " row(s) would be affected"),
                  affected_rows := some o.rowcount,
                  query_type := some qt.verbName, dry_run := some true,
                  warning := some "Changes were NOT committed (dry-run mode)" },
              mgr := m', db := db,
              events := [Ev.beginTx, Ev.execStmt sql_query, Ev.rollbackTx] }
          else
            { res :=
                { ExecResult.base with
                  success := true,
                  message := some ("Query executed successfully: " ++
                    toString o.rowcount ++ " row(s) affected"),
                  affected_rows := some o.rowcount,
                  query_type := some qt.verbName, dry_run := some false },
              mgr := m', db := o.state,
              events := [Ev.beginTx, Ev.execStmt sql_query, Ev.commitTx] }
        | Except.error e =>
          { res := executeCatch e, mgr := m', db := db,
            events := [Ev.beginTx, Ev.execStmt sql_query, Ev.rollbackTx] }

/-- One column dict of the schema output; `default` is `str(...)` of the
introspected default when that value is truthy, `None` otherwise. -/
structure SchemaCol where
  name : String
  colType : String
  nullable : Bool
  dfault : Option String
  primary_key : Bool
deriving Repr, DecidableEq

/-- One table dict of the schema output. -/
structure SchemaTable where
  name : String
  columns : List SchemaCol
  primary_keys : List String
  foreign_keys : List InspFK
deriving Repr, DecidableEq

/-- The dict returned by `get_schema` (success and failure shapes). -/
structure SchemaResult where
  success : Bool
  database : Option String
  tables : Option (List SchemaTable)
  table_count : Option Nat
  error : Option String
  message : Option String
deriving Repr, DecidableEq

/-- The per-column body of `get_schema`'s loop:
`"default": str(column.get('default')) if column.get('default') else None`
together with the other four fields. -/
def schemaColOf (col : InspCol) : SchemaCol :=
  { name := col.name, colType := col.colType,
    nullable := col.nullable.getD true,
    dfault := if col.dfault.truthy then some col.dfault.pyStrOf else none,
    primary_key := col.primary_key.getD false }

/-- The per-table body of `get_schema`'s loop. -/
def schemaTableOf (t : InspTable) : SchemaTable :=
  { name := t.name, columns := t.columns.map schemaColOf,
    primary_keys := t.pk_constrained, foreign_keys := t.fks }

/-- The failure dict of `get_schema`'s `except SQLAlchemyError` clause. -/
def schemaCatch (e : PyErr) : SchemaResult :=
  { success := false, database := none, tables := none, table_count := none,
    error := some e.str,
    message := some ("Failed to get schema: " ++ e.str) }

/-- The source's `DatabaseManager.get_schema`. Its `try` block is guarded
only by `except SQLAlchemyError`, so a non-SQLAlchemy exception (for example
the `ValueError` that `get_connection_string` raises for an unknown dialect)
escapes to the caller: that propagated exception is the `Except.error` of the
first component. The engine cache is returned alongside. -/
def get_schema {σ : Type} (dmap : String → Driver σ) (m : Manager)
    (c : Connector) (db : σ) : Except PyErr SchemaResult × Manager :=
  match get_engine m c.id c with
  | Except.error e =>
    if e.isSQLAlchemy then (Except.ok (schemaCatch e), m)
    else (Except.error e, m)
  | Except.ok (eng, m') =>
    match (dmap eng.connStr).inspect db with
    | Except.error e =>
      if e.isSQLAlchemy then (Except.ok (schemaCatch e), m')
      else (Except.error e, m')
    | Except.ok ts =>
      let tables := ts.map schemaTableOf
      (Except.ok
        { success := true, database := some c.database,
          tables := some tables, table_count := some tables.length,
          error := none, message := none }, m')

/-- The dict returned by `test_connection`. -/
structure TestResult where
  success : Bool
  message : String
  error : Option String
deriving Repr, DecidableEq

/-- The source's `DatabaseManager.test_connection`: acquire the engine,
connect, run `SELECT 1`; any exception at all is caught and reported as a
connection failure. -/
def test_connection {σ : Type} (dmap : String → Driver σ) (m : Manager)
    (c : Connector) (db : σ) : TestResult × Manager × List Ev :=
  match get_engine m c.id c with
  | Except.error e =>
    ({ success := false, message := "Connection failed: " ++ e.str,
       error := some e.str }, m, [])
  | Except.ok (eng, m') =>
    match (dmap eng.connStr).connect with
    | Except.error e =>
      ({ success := false, message := "Connection failed: " ++ e.str,
         error := some e.str }, m', [])
    | Except.ok _ =>
      match (dmap eng.connStr).exec "SELECT 1" db with
      | Except.ok _ =>
        ({ success := true, message := "Connection successful", error := none },
         m', [Ev.execStmt "SELECT 1"])
      | Except.error e =>
        ({ success := false, message := "Connection failed: " ++ e.str,
           error := some e.str }, m', [Ev.execStmt "SELECT 1"])

/-- One suggested query dict of `generate_default_queries`. -/
structure DefaultQuery where
  table_name : String
  query_name : String
  description : String
  sql_query : String
  query_type : String
deriving Repr, DecidableEq

/-- The dict returned by `generate_default_queries` (the schema-failure path
returns `get_schema`'s failure dict verbatim, which carries exactly the
`success`/`error`/`message` fields). -/
structure GenResult where
  success : Bool
  connector_id : Option String
  queries : Option (List DefaultQuery)
  query_count : Option Nat
  error : Option String
  message : Option String
deriving Repr, DecidableEq

/-- The source's `DatabaseManager.generate_default_queries`: derive one
`SELECT * FROM {table}` suggestion per introspected table. Its own
`except Exception` also catches whatever `get_schema` lets escape. -/
def generate_default_queries {σ : Type} (dmap : String → Driver σ)
    (m : Manager) (c : Connector) (db : σ) : GenResult × Manager :=
  match get_schema dmap m c db with
  | (Except.error e, m') =>
    ({ success := false, connector_id := none, queries := none,
       query_count := none, error := some e.str,
       message := some ("Failed to generate default queries: " ++ e.str) }, m')
  | (Except.ok sr, m') =>
    if sr.success then
      let qs := (sr.tables.getD []).map (fun t =>
        { table_name := t.name,
          query_name := "Select all from " ++ t.name,
          description := "Get all records from " ++ t.name ++ " table",
          sql_query := "SELECT * FROM " ++ t.name,
          query_type := "SELECT" : DefaultQuery })
      ({ success := true, connector_id := some c.id, queries := some qs,
         query_count := some qs.length, error := none, message := none }, m')
    else
      ({ success := false, connector_id := none, queries := none,
         query_count := none, error := sr.error, message := sr.message }, m')

/-- A driver (over committed state `σ := Nat`) whose calls all succeed:
every statement bumps the uncommitted state and reports one row. Used to
instantiate universally quantified theorems at concrete inputs. -/
def okDriver : Driver Nat :=
  { connect := Except.ok (),
    exec := fun _ st =>
      Except.ok { state := st + 1, rowcount := 1, colKeys := ["id"],
                  rows := [[("id", "1")]] },
    compile := fun _ => Except.ok (),
    inspect := fun _ => Except.ok [] }

/-- The engine-to-driver assignment mapping every engine to `okDriver`. -/
def okDmap : String → Driver Nat := fun _ => okDriver

/-- A sqlite connector descriptor. -/
def sqliteConn : Connector :=
  { id := "c1", db_type := "sqlite", host := "", port := "",
    database := "test.db", username := "", password := "",
    connection_string := none }

/-- An empty engine cache. -/
def emptyMgr : Manager := { engines := [] }

/-- C10: for every successfully introspected column, `get_schema`'s
per-column conversion reports the default as `None` whenever the
dialect-reported default is Python-falsy (`None`, `0`, `''`, `False`), and
converts only truthy defaults with `str(...)`; consequently a declared
default of `0` or `''` is indistinguishable in the output from no default
at all. -/
theorem get_schema_default_falsy_reported_none (col : InspCol) :
    (col.dfault.truthy = false → (schemaColOf col).dfault = none)
    ∧ (col.dfault.truthy = true →
        (schemaColOf col).dfault = some col.dfault.pyStrOf)
    ∧ (∀ name ty nb pk,
        schemaColOf ⟨name, ty, nb, PyVal.pyInt 0, pk⟩ =
          schemaColOf ⟨name, ty, nb, PyVal.pyNone, pk⟩
        ∧ schemaColOf ⟨name, ty, nb, PyVal.pyStr "", pk⟩ =
          schemaColOf ⟨name, ty, nb, PyVal.pyNone, pk⟩) := by
  refine ⟨fun h => ?_, fun h => ?_, fun name ty nb pk => ?_⟩
  · simp [schemaColOf, h]
  · simp [schemaColOf, h]
  · constructor <;> simp [schemaColOf, PyVal.truthy]

/-- Witness for C10 at a concrete column whose declared default is `0`. -/
theorem get_schema_default_falsy_reported_none_witness :
    (schemaColOf ⟨"price", "INTEGER", some true, PyVal.pyInt 0, some false⟩).dfault
      = none :=
  (get_schema_default_falsy_reported_none
    ⟨"price", "INTEGER", some true, PyVal.pyInt 0, some false⟩).1 (by decide)

/-- C8: `get_connection_string` returns a set `connection_string` verbatim
(overriding the discrete fields, none of which it reads on that path);
with no `connection_string` it builds the documented sqlite, postgresql and
mysql URLs from the discrete fields, and for any other dialect value it
fails with the unsupported-dialect `ValueError`. The function is pure —
no driver call occurs — so the failure precedes any I/O. -/
theorem get_connection_string_dispatch (c : Connector) :
    (∀ s, c.connection_string = some s → s ≠ "" →
        get_connection_string c = Except.ok s)
    ∧ (c.connection_string = none →
        ((c.db_type = "sqlite" →
            get_connection_string c = Except.ok ("sqlite:///" ++ c.database))
        ∧ (c.db_type = "postgresql" →
            get_connection_string c =
              Except.ok ("postgresql://" ++ c.username ++ ":" ++ c.password ++
                "@" ++ c.host ++ ":" ++ c.port ++ "/" ++ c.database))
        ∧ (c.db_type = "mysql" →
            get_connection_string c =
              Except.ok ("mysql+pymysql://" ++ c.username ++ ":" ++ c.password ++
                "@" ++ c.host ++ ":" ++ c.port ++ "/" ++ c.database))
        ∧ (c.db_type ≠ "sqlite" → c.db_type ≠ "postgresql" → c.db_type ≠ "mysql" →
            get_connection_string c =
              Except.error
                (PyErr.otherExc ("Unsupported database type: " ++ c.db_type))))) := by
  constructor
  · intro s hs hne
    simp [get_connection_string, hs, hne]
  · intro hnone
    refine ⟨fun h => ?_, fun h => ?_, fun h => ?_, fun h₁ h₂ h₃ => ?_⟩
    · simp [get_connection_string, hnone, h]
    · simp [get_connection_string, hnone, h]
    · simp [get_connection_string, hnone, h]
    · simp [get_connection_string, hnone, h₁, h₂, h₃]

/-- Witness for C8: the postgresql URL at a concrete descriptor, and the
verbatim override at another. -/
theorem get_connection_string_dispatch_witness :
    get_connection_string
        ⟨"p1", "postgresql", "localhost", "5432", "mydb", "u", "pw", none⟩ =
      Except.ok ("postgresql://" ++ "u" ++ ":" ++ "pw" ++ "@" ++ "localhost" ++
        ":" ++ "5432" ++ "/" ++ "mydb")
    ∧ get_connection_string
        ⟨"p2", "postgresql", "h", "1", "d", "u", "pw", some "custom://x"⟩ =
      Except.ok "custom://x" :=
  ⟨((get_connection_string_dispatch
      ⟨"p1", "postgresql", "localhost", "5432", "mydb", "u", "pw", none⟩).2
        rfl).2.1 rfl,
   (get_connection_string_dispatch
      ⟨"p2", "postgresql", "h", "1", "d", "u", "pw", some "custom://x"⟩).1
        "custom://x" rfl (by decide)⟩

/-- C5: classification is decided by the case-insensitive leading-keyword
match after trimming whitespace — `select * from t`, `SELECT * FROM t` and
`  Select 1` all classify as SELECT; CREATE/ALTER/DROP and unrecognized
statements such as one starting with WITH fall into the DDL/other class; and
`validate_query`/`execute_query` both report the class so computed. -/
theorem classify_leading_keyword :
    classify "select * from t" = QueryType.SELECT
    ∧ classify "SELECT * FROM t" = QueryType.SELECT
    ∧ classify "  Select 1" = QueryType.SELECT
    ∧ classify "insert into t values (1)" = QueryType.INSERT
    ∧ classify "UPDATE t SET x = 1" = QueryType.UPDATE
    ∧ classify "  delete from t" = QueryType.DELETE
    ∧ classify "CREATE TABLE t (x int)" = QueryType.DDL_OR_OTHER
    ∧ classify "ALTER TABLE t ADD y int" = QueryType.DDL_OR_OTHER
    ∧ classify "DROP TABLE t" = QueryType.DDL_OR_OTHER
    ∧ classify "WITH cte AS (SELECT 1) SELECT * FROM cte" = QueryType.DDL_OR_OTHER
    ∧ (validate_query okDmap emptyMgr "  Select 1" sqliteConn 0).res.query_type
        = some "SELECT"
    ∧ (execute_query okDmap emptyMgr "  Select 1" sqliteConn 1000 false 0).res.query_type
        = some "SELECT"
    ∧ (validate_query okDmap emptyMgr "select * from t" sqliteConn 0).res.query_type
        = some "SELECT"
    ∧ (execute_query okDmap emptyMgr "SELECT * FROM t" sqliteConn 1000 false 0).res.query_type
        = some "SELECT" := by
  decide

/-- Keys only grow across `get_engine`. -/
theorem get_engine_keys_mono (m : Manager) (cid : String) (c : Connector)
    (eng : Engine) (m' : Manager)
    (h : get_engine m cid c = Except.ok (eng, m')) :
    ∀ k, k ∈ m.keys → k ∈ m'.keys := by
  unfold get_engine at h
  rcases hf : findEngine m.engines cid with _ | e <;> rw [hf] at h
  · rcases hcs : get_connection_string c with err | cs <;> rw [hcs] at h
    · cases h
    · injection h with h'
      cases h'
      intro k hk
      simp only [Manager.keys, List.map_append, List.mem_append]
      exact Or.inl hk
  · injection h with h'
    cases h'
    intro k hk
    exact hk

/-- The cache after `validate_query` is the input cache or the one
`get_engine` produced. -/
theorem validate_query_mgr_cases {σ : Type} (dmap : String → Driver σ)
    (m : Manager) (sql : String) (c : Connector) (db : σ) :
    (validate_query dmap m sql c db).mgr = m ∨
      ∃ eng m', get_engine m c.id c = Except.ok (eng, m')
        ∧ (validate_query dmap m sql c db).mgr = m' := by
  rcases hge : get_engine m c.id c with e | ⟨eng, m'⟩
  · left
    simp [validate_query, hge]
  · right
    refine ⟨eng, m', rfl, ?_⟩
    simp only [validate_query, hge]
    rcases (dmap eng.connStr).connect with e | u
    · rfl
    · rcases classify sql with _ | _ | _ | _ | _
      · rcases (dmap eng.connStr).exec (wrappedDryRun sql) db with e₁ | o₁
        · dsimp only
          by_cases hsa : e₁.isSQLAlchemy = true
          · rw [if_pos hsa]
            rcases (dmap eng.connStr).exec (fallbackDryRun sql) db with e₂ | o₂ <;> rfl
          · rw [if_neg hsa]
        · rfl
      · rcases (dmap eng.connStr).exec sql db with e | o <;> rfl
      · rcases (dmap eng.connStr).exec sql db with e | o <;> rfl
      · rcases (dmap eng.connStr).exec sql db with e | o <;> rfl
      · rcases (dmap eng.connStr).compile sql with e | u₂ <;> rfl

/-- The cache after `execute_query` is the input cache or the one
`get_engine` produced. -/
theorem execute_query_mgr_cases {σ : Type} (dmap : String → Driver σ)
    (m : Manager) (sql : String) (c : Connector) (lim : Nat) (dr : Bool)
    (db : σ) :
    (execute_query dmap m sql c lim dr db).mgr = m ∨
      ∃ eng m', get_engine m c.id c = Except.ok (eng, m')
        ∧ (execute_query dmap m sql c lim dr db).mgr = m' := by
  rcases hge : get_engine m c.id c with e | ⟨eng, m'⟩
  · left
    simp [execute_query, hge]
  · right
    refine ⟨eng, m', rfl, ?_⟩
    simp only [execute_query, hge]
    rcases (dmap eng.connStr).connect with e | u
    · rfl
    · rcases classify sql with _ | _ | _ | _ | _
      · rcases (dmap eng.connStr).exec
          (if containsSubstr (pyLower (pyStrip sql)) "limit" then sql
           else rstripSemis sql ++ " LIMIT " ++ toString lim) db with e | o <;> rfl
      · rcases (dmap eng.connStr).exec sql db with e | o
        · rfl
        · dsimp only
          by_cases hdr : dr = true
          · rw [if_pos hdr]
          · rw [if_neg hdr]
      · rcases (dmap eng.connStr).exec sql db with e | o
        · rfl
        · dsimp only
          by_cases hdr : dr = true
          · rw [if_pos hdr]
          · rw [if_neg hdr]
      · rcases (dmap eng.connStr).exec sql db with e | o
        · rfl
        · dsimp only
          by_cases hdr : dr = true
          · rw [if_pos hdr]
          · rw [if_neg hdr]
      · dsimp only
        by_cases hdr : dr = true
        · rw [if_pos hdr]
        · rw [if_neg hdr]
          rcases (dmap eng.connStr).exec sql db with e | o <;> rfl

/-- The cache after `get_schema` is the input cache or the one `get_engine`
produced. -/
theorem get_schema_mgr_cases {σ : Type} (dmap : String → Driver σ)
    (m : Manager) (c : Connector) (db : σ) :
    (get_schema dmap m c db).2 = m ∨
      ∃ eng m', get_engine m c.id c = Except.ok (eng, m')
        ∧ (get_schema dmap m c db).2 = m' := by
  rcases hge : get_engine m c.id c with e | ⟨eng, m'⟩
  · left
    simp only [get_schema, hge]
    by_cases hsa : e.isSQLAlchemy = true
    · rw [if_pos hsa]
    · rw [if_neg hsa]
  · right
    refine ⟨eng, m', rfl, ?_⟩
    simp only [get_schema, hge]
    rcases (dmap eng.connStr).inspect db with e | ts
    · dsimp only
      by_cases hsa : e.isSQLAlchemy = true
      · rw [if_pos hsa]
      · rw [if_neg hsa]
    · rfl

/-- The cache after `test_connection` is the input cache or the one
`get_engine` produced. -/
theorem test_connection_mgr_cases {σ : Type} (dmap : String → Driver σ)
    (m : Manager) (c : Connector) (db : σ) :
    (test_connection dmap m c db).2.1 = m ∨
      ∃ eng m', get_engine m c.id c = Except.ok (eng, m')
        ∧ (test_connection dmap m c db).2.1 = m' := by
  rcases hge : get_engine m c.id c with e | ⟨eng, m'⟩
  · left
    simp [test_connection, hge]
  · right
    refine ⟨eng, m', rfl, ?_⟩
    simp only [test_connection, hge]
    rcases (dmap eng.connStr).connect with e | u
    · rfl
    · rcases (dmap eng.connStr).exec "SELECT 1" db with e | o <;> rfl

/-- The cache after `generate_default_queries` is the input cache or the one
`get_engine` produced. -/
theorem generate_default_queries_mgr_cases {σ : Type}
    (dmap : String → Driver σ) (m : Manager) (c : Connector) (db : σ) :
    (generate_default_queries dmap m c db).2 = m ∨
      ∃ eng m', get_engine m c.id c = Except.ok (eng, m')
        ∧ (generate_default_queries dmap m c db).2 = m' := by
  have h := get_schema_mgr_cases dmap m c db
  rcases hgs : get_schema dmap m c db with ⟨r, m₂⟩
  rw [hgs] at h
  rcases h with h | ⟨eng, m', hge, h⟩
  · left
    simp only [generate_default_queries, hgs]
    rcases r with e | sr
    · exact h
    · dsimp only
      by_cases hs : sr.success = true
      · rw [if_pos hs]
        exact h
      · rw [if_neg hs]
        exact h
  · right
    refine ⟨eng, m', hge, ?_⟩
    simp only [generate_default_queries, hgs]
    rcases r with e | sr
    · exact h
    · dsimp only
      by_cases hs : sr.success = true
      · rw [if_pos hs]
        exact h
      · rw [if_neg hs]
        exact h

/-- C9: the engine cache maps connector ids to handles and is preserved by
every operation — a hit returns the cached handle unchanged without reading
the descriptor's contents, a miss builds the connection string and appends
exactly one entry, `get_engine` never shrinks the key set, and none of the
five public operations removes a cached id, so the set of cached ids grows
monotonically. -/
theorem engine_cache_invariant {σ : Type} :
    (∀ (m : Manager) (cid : String) (c₁ c₂ : Connector) (e : Engine),
        findEngine m.engines cid = some e →
        get_engine m cid c₁ = Except.ok (e, m)
        ∧ get_engine m cid c₁ = get_engine m cid c₂)
    ∧ (∀ (m : Manager) (cid : String) (c : Connector) (cs : String),
        findEngine m.engines cid = none →
        get_connection_string c = Except.ok cs →
        get_engine m cid c =
          Except.ok (Engine.mk cs,
            Manager.mk (m.engines ++ [(cid, Engine.mk cs)])))
    ∧ (∀ (m : Manager) (cid : String) (c : Connector) (e : Engine)
        (m' : Manager),
        get_engine m cid c = Except.ok (e, m') →
        ∀ k, k ∈ m.keys → k ∈ m'.keys)
    ∧ (∀ (dmap : String → Driver σ) (m : Manager) (sql : String)
        (c : Connector) (db : σ) (lim : Nat) (dr : Bool) (k : String),
        k ∈ m.keys →
        k ∈ (validate_query dmap m sql c db).mgr.keys
        ∧ k ∈ (execute_query dmap m sql c lim dr db).mgr.keys
        ∧ k ∈ (get_schema dmap m c db).2.keys
        ∧ k ∈ (test_connection dmap m c db).2.1.keys
        ∧ k ∈ (generate_default_queries dmap m c db).2.keys) := by
  refine ⟨?_, ?_, get_engine_keys_mono, ?_⟩
  · intro m cid c₁ c₂ e hf
    constructor <;> simp [get_engine, hf]
  · intro m cid c cs hf hcs
    simp [get_engine, hf, hcs]
  · intro dmap m sql c db lim dr k hk
    refine ⟨?_, ?_, ?_, ?_, ?_⟩
    · rcases validate_query_mgr_cases dmap m sql c db with h | ⟨eng, m', hge, h⟩
      · rw [h]; exact hk
      · rw [h]; exact get_engine_keys_mono m c.id c eng m' hge k hk
    · rcases execute_query_mgr_cases dmap m sql c lim dr db with h | ⟨eng, m', hge, h⟩
      · rw [h]; exact hk
      · rw [h]; exact get_engine_keys_mono m c.id c eng m' hge k hk
    · rcases get_schema_mgr_cases dmap m c db with h | ⟨eng, m', hge, h⟩
      · rw [h]; exact hk
      · rw [h]; exact get_engine_keys_mono m c.id c eng m' hge k hk
    · rcases test_connection_mgr_cases dmap m c db with h | ⟨eng, m', hge, h⟩
      · rw [h]; exact hk
      · rw [h]; exact get_engine_keys_mono m c.id c eng m' hge k hk
    · rcases generate_default_queries_mgr_cases dmap m c db with h | ⟨eng, m', hge, h⟩
      · rw [h]; exact hk
      · rw [h]; exact get_engine_keys_mono m c.id c eng m' hge k hk

/-- Witness for C9 at concrete inputs: a cache hit on id `c1` returns the
cached handle without touching the cache and ignores a different descriptor;
a miss on the empty cache inserts the sqlite engine; and a cached id
survives a `validate_query` call. -/
theorem engine_cache_invariant_witness :
    (get_engine (Manager.mk [("c1", Engine.mk "sqlite:///old.db")]) "c1"
        sqliteConn =
      Except.ok (Engine.mk "sqlite:///old.db",
        Manager.mk [("c1", Engine.mk "sqlite:///old.db")]))
    ∧ (get_engine emptyMgr "c1" sqliteConn =
        Except.ok (Engine.mk "sqlite:///test.db",
          Manager.mk [("c1", Engine.mk "sqlite:///test.db")]))
    ∧ "c1" ∈ (validate_query okDmap
        (Manager.mk [("c1", Engine.mk "sqlite:///old.db")])
        "SELECT * FROM t" sqliteConn 0).mgr.keys :=
  ⟨((engine_cache_invariant (σ := Nat)).1
      (Manager.mk [("c1", Engine.mk "sqlite:///old.db")]) "c1" sqliteConn
      sqliteConn (Engine.mk "sqlite:///old.db") (by decide)).1,
   by
    have h := (engine_cache_invariant (σ := Nat)).2.1 emptyMgr "c1" sqliteConn
      "sqlite:///test.db" (by decide) rfl
    simpa [emptyMgr] using h,
   ((engine_cache_invariant (σ := Nat)).2.2.2 okDmap
      (Manager.mk [("c1", Engine.mk "sqlite:///old.db")]) "SELECT * FROM t"
      sqliteConn 0 1000 false "c1" (by decide)).1⟩

/-- Occurrences of one event in a trace. -/
def countEv (e : Ev) (l : List Ev) : Nat :=
  (l.filter (fun x => x = e)).length

/-- C1: for every SQL string whose leading keyword (after trimming,
case-insensitive) is INSERT, UPDATE or DELETE, and every connector whose
engine resolves and connects, `validate_query` opens an explicit
transaction, executes the statement, and rolls back on both the success and
the exception path — never committing — so the committed database state is
returned unchanged; on success it reports `valid`, the matching verb as
`query_type`, and the would-modify-data warning. -/
theorem validate_dml_rolls_back_never_commits {σ : Type}
    (dmap : String → Driver σ) (m : Manager) (sql : String) (c : Connector)
    (db : σ) (eng : Engine) (m' : Manager)
    (hq : classify sql = QueryType.INSERT ∨ classify sql = QueryType.UPDATE
      ∨ classify sql = QueryType.DELETE)
    (hge : get_engine m c.id c = Except.ok (eng, m'))
    (hcn : (dmap eng.connStr).connect = Except.ok ()) :
    (validate_query dmap m sql c db).db = db
    ∧ (validate_query dmap m sql c db).events
        = [Ev.beginTx, Ev.execStmt sql, Ev.rollbackTx]
    ∧ countEv Ev.commitTx (validate_query dmap m sql c db).events = 0
    ∧ countEv Ev.rollbackTx (validate_query dmap m sql c db).events = 1
    ∧ (∀ o, (dmap eng.connStr).exec sql db = Except.ok o →
        (validate_query dmap m sql c db).res.valid = true
        ∧ (validate_query dmap m sql c db).res.query_type
            = some (classify sql).verbName
        ∧ (validate_query dmap m sql c db).res.warning
            = some "This query will modify data. Use with caution.") := by
  rcases hq with hq | hq | hq <;>
    (simp only [validate_query, hge, hcn, hq]
     rcases hexec : (dmap eng.connStr).exec sql db with e | o <;>
       simp [hexec, countEv, QueryType.verbName])

/-- Witness for C1: a concrete INSERT against the all-succeeding sqlite
driver leaves the committed state `7` unchanged and reports the INSERT verb
with the warning. -/
theorem validate_dml_rolls_back_never_commits_witness :
    (validate_query okDmap emptyMgr "INSERT INTO t VALUES (1)" sqliteConn
        (7 : Nat)).db = 7
    ∧ (validate_query okDmap emptyMgr "INSERT INTO t VALUES (1)" sqliteConn
        (7 : Nat)).res.query_type = some "INSERT" := by
  have h := validate_dml_rolls_back_never_commits okDmap emptyMgr
    "INSERT INTO t VALUES (1)" sqliteConn (7 : Nat)
    (Engine.mk "sqlite:///test.db")
    (Manager.mk [("c1", Engine.mk "sqlite:///test.db")])
    (Or.inl (by decide)) rfl rfl
  refine ⟨h.1, ?_⟩
  have h₂ := h.2.2.2.2 _ rfl
  have h₃ := h₂.2.1
  simpa using h₃

/-- C2: for every DML statement and every connector whose engine resolves
and connects, `execute_query` reaches exactly one of commit or rollback on
every control path: with `dry_run` it rolls back regardless of success and,
on success, returns the predicted `affected_rows` with `dry_run:true` and
the not-committed warning; without `dry_run` it commits on success (the
committed state advances to the transaction's state) and on any exception
rolls back — leaving the committed state unchanged — before the error is
surfaced as a failure result. -/
theorem execute_dml_commit_xor_rollback {σ : Type}
    (dmap : String → Driver σ) (m : Manager) (sql : String) (c : Connector)
    (lim : Nat) (dr : Bool) (db : σ) (eng : Engine) (m' : Manager)
    (hq : classify sql = QueryType.INSERT ∨ classify sql = QueryType.UPDATE
      ∨ classify sql = QueryType.DELETE)
    (hge : get_engine m c.id c = Except.ok (eng, m'))
    (hcn : (dmap eng.connStr).connect = Except.ok ()) :
    countEv Ev.commitTx (execute_query dmap m sql c lim dr db).events
      + countEv Ev.rollbackTx (execute_query dmap m sql c lim dr db).events = 1
    ∧ (dr = true →
        (execute_query dmap m sql c lim true db).db = db
        ∧ countEv Ev.commitTx
            (execute_query dmap m sql c lim true db).events = 0
        ∧ (∀ o, (dmap eng.connStr).exec sql db = Except.ok o →
            (execute_query dmap m sql c lim true db).res.success = true
            ∧ (execute_query dmap m sql c lim true db).res.affected_rows
                = some o.rowcount
            ∧ (execute_query dmap m sql c lim true db).res.dry_run = some true
            ∧ (execute_query dmap m sql c lim true db).res.warning
                = some "Changes were NOT committed (dry-run mode)"))
    ∧ (dr = false →
        (∀ o, (dmap eng.connStr).exec sql db = Except.ok o →
            (execute_query dmap m sql c lim false db).events
              = [Ev.beginTx, Ev.execStmt sql, Ev.commitTx]
            ∧ (execute_query dmap m sql c lim false db).db = o.state
            ∧ (execute_query dmap m sql c lim false db).res.success = true)
        ∧ (∀ e, (dmap eng.connStr).exec sql db = Except.error e →
            (execute_query dmap m sql c lim false db).events
              = [Ev.beginTx, Ev.execStmt sql, Ev.rollbackTx]
            ∧ (execute_query dmap m sql c lim false db).db = db
            ∧ (execute_query dmap m sql c lim false db).res.success = false)) := by
  rcases hq with hq | hq | hq <;>
  · refine ⟨?_, fun hdr => ?_, fun hdr => ⟨fun o ho => ?_, fun e he => ?_⟩⟩
    · rcases hexec : (dmap eng.connStr).exec sql db with e | o <;>
        cases dr <;>
        simp [execute_query, hge, hcn, hq, hexec, countEv]
    · rcases hexec : (dmap eng.connStr).exec sql db with e | o <;>
        simp [execute_query, hge, hcn, hq, hexec, countEv, ExecResult.base]
    · simp [execute_query, hge, hcn, hq, ho]
    · simp [execute_query, hge, hcn, hq, he, ExecResult.base, executeCatch]
      rcases e with ⟨orig, full⟩ | msg <;> simp [executeCatch, ExecResult.base]

/-- Witness for C2: a concrete DELETE against the all-succeeding driver —
dry-run keeps the committed state at `7` while predicting one affected row;
real execution commits, advancing the committed state to `8`. -/
theorem execute_dml_commit_xor_rollback_witness :
    (execute_query okDmap emptyMgr "DELETE FROM t WHERE id=1" sqliteConn
        1000 true (7 : Nat)).db = 7
    ∧ (execute_query okDmap emptyMgr "DELETE FROM t WHERE id=1" sqliteConn
        1000 true (7 : Nat)).res.affected_rows = some 1
    ∧ (execute_query okDmap emptyMgr "DELETE FROM t WHERE id=1" sqliteConn
        1000 false (7 : Nat)).db = 8 := by
  have h := execute_dml_commit_xor_rollback okDmap emptyMgr
    "DELETE FROM t WHERE id=1" sqliteConn 1000 true (7 : Nat)
    (Engine.mk "sqlite:///test.db")
    (Manager.mk [("c1", Engine.mk "sqlite:///test.db")])
    (Or.inr (Or.inr (by decide))) rfl rfl
  have h' := execute_dml_commit_xor_rollback okDmap emptyMgr
    "DELETE FROM t WHERE id=1" sqliteConn 1000 false (7 : Nat)
    (Engine.mk "sqlite:///test.db")
    (Manager.mk [("c1", Engine.mk "sqlite:///test.db")])
    (Or.inr (Or.inr (by decide))) rfl rfl
  refine ⟨(h.2.1 rfl).1, ((h.2.1 rfl).2.2 _ rfl).2.1, ?_⟩
  exact ((h'.2.2 rfl).1 _ rfl).2.1

/-- A driver that returns two rows for every statement (it does not honor a
`LIMIT` bound), over `σ := Nat`. -/
def twoRowDriver : Driver Nat :=
  { connect := Except.ok (),
    exec := fun _ st =>
      Except.ok { state := st, rowcount := 2, colKeys := ["id"],
                  rows := [[("id", "1")], [("id", "2")]] },
    compile := fun _ => Except.ok (),
    inspect := fun _ => Except.ok [] }

/-- Counterexample to C3 as stated: `select * from limits` contains no LIMIT
clause, but the source's guard is the substring test `'limit' in
query_lower`, which the table name `limits` trips — so with caller limit 1
the statement is executed verbatim, no `LIMIT 1` is appended, and the result
reports 2 > 1 rows. -/
theorem select_limit_counterexample :
    (execute_query (fun _ => twoRowDriver) emptyMgr "select * from limits"
        sqliteConn 1 false 0).events
      = [Ev.execStmt "select * from limits"]
    ∧ (execute_query (fun _ => twoRowDriver) emptyMgr "select * from limits"
        sqliteConn 1 false 0).res.row_count = some 2 := by
  constructor <;> rfl

/-- C3 (amended): for every SELECT whose lowered, stripped text does not
contain the substring `limit`, and caller-supplied limit `lim`,
`execute_query` appends ` LIMIT {lim}` (after stripping trailing semicolons)
before executing; when the driver honors the appended bound, the successful
result's data and `row_count` never exceed `lim`. -/
theorem select_limit_appended {σ : Type}
    (dmap : String → Driver σ) (m : Manager) (sql : String) (c : Connector)
    (lim : Nat) (db : σ) (eng : Engine) (m' : Manager)
    (hsel : classify sql = QueryType.SELECT)
    (hnl : containsSubstr (pyLower (pyStrip sql)) "limit" = false)
    (hge : get_engine m c.id c = Except.ok (eng, m'))
    (hcn : (dmap eng.connStr).connect = Except.ok ())
    (hbound : ∀ (st : σ) (o : ExecOut σ),
      (dmap eng.connStr).exec (rstripSemis sql ++ " LIMIT " ++ toString lim) st
        = Except.ok o → o.rows.length ≤ lim) :
    (execute_query dmap m sql c lim false db).events
      = [Ev.execStmt (rstripSemis sql ++ " LIMIT " ++ toString lim)]
    ∧ (∀ o, (dmap eng.connStr).exec
          (rstripSemis sql ++ " LIMIT " ++ toString lim) db = Except.ok o →
        (execute_query dmap m sql c lim false db).res.data = some o.rows
        ∧ (execute_query dmap m sql c lim false db).res.row_count
            = some o.rows.length
        ∧ o.rows.length ≤ lim
        ∧ (execute_query dmap m sql c lim false db).res.success = true) := by
  constructor
  · rcases hexec : (dmap eng.connStr).exec
        (rstripSemis sql ++ " LIMIT " ++ toString lim) db with e | o <;>
      simp [execute_query, hge, hcn, hsel, hnl, hexec]
  · intro o ho
    refine ⟨?_, ?_, hbound db o ho, ?_⟩ <;>
      simp [execute_query, hge, hcn, hsel, hnl, ho, ExecResult.base]

/-- Witness for C3 (amended): `SELECT * FROM users` with the one-row driver
and limit 1000 executes the appended statement and returns one row. -/
theorem select_limit_appended_witness :
    (execute_query okDmap emptyMgr "SELECT * FROM users" sqliteConn
        1000 false (0 : Nat)).events
      = [Ev.execStmt "SELECT * FROM users LIMIT 1000"]
    ∧ (execute_query okDmap emptyMgr "SELECT * FROM users" sqliteConn
        1000 false (0 : Nat)).res.row_count = some 1 := by
  have h := select_limit_appended okDmap emptyMgr "SELECT * FROM users"
    sqliteConn 1000 (0 : Nat) (Engine.mk "sqlite:///test.db")
    (Manager.mk [("c1", Engine.mk "sqlite:///test.db")])
    (by decide) (by decide) rfl rfl
    (by intro st o hx; cases hx; show (1:Nat) ≤ 1000; decide)
  have h₂ := h.2 _ rfl
  exact ⟨by simpa using h.1, by simpa using h₂.2.1⟩

/-- C6: for every SELECT and every connector whose engine resolves and
connects, `validate_query` first executes the statement wrapped as
`SELECT * FROM (<stripped-sql>) AS validation_subquery LIMIT 0`; if that
raises a driver (`SQLAlchemyError`) error it re-attempts with the fallback —
any existing `LIMIT n` stripped by pattern substitution when present, plus a
direct ` LIMIT 0` — and only if both attempts fail is the underlying error
surfaced as `valid:false`. -/
theorem validate_select_two_attempts {σ : Type}
    (dmap : String → Driver σ) (m : Manager) (sql : String) (c : Connector)
    (db : σ) (eng : Engine) (m' : Manager)
    (hsel : classify sql = QueryType.SELECT)
    (hge : get_engine m c.id c = Except.ok (eng, m'))
    (hcn : (dmap eng.connStr).connect = Except.ok ()) :
    wrappedDryRun sql
      = "SELECT * FROM (" ++ rstripSemis sql ++ ") AS validation_subquery LIMIT 0"
    ∧ (∀ o, (dmap eng.connStr).exec (wrappedDryRun sql) db = Except.ok o →
        (validate_query dmap m sql c db).res = validSelectResult
        ∧ (validate_query dmap m sql c db).events
            = [Ev.execStmt (wrappedDryRun sql)])
    ∧ (∀ orig full,
        (dmap eng.connStr).exec (wrappedDryRun sql) db
          = Except.error (PyErr.sqlalchemy orig full) →
        (validate_query dmap m sql c db).events
          = [Ev.execStmt (wrappedDryRun sql), Ev.execStmt (fallbackDryRun sql)]
        ∧ (∀ o, (dmap eng.connStr).exec (fallbackDryRun sql) db = Except.ok o →
            (validate_query dmap m sql c db).res = validSelectResult)
        ∧ (∀ e₂, (dmap eng.connStr).exec (fallbackDryRun sql) db
              = Except.error e₂ →
            (validate_query dmap m sql c db).res = validateCatch e₂
            ∧ (validate_query dmap m sql c db).res.valid = false))
    ∧ (containsSubstr (pyLower (pyStrip sql)) "limit" = true →
        fallbackDryRun sql = rstripSemis (reSubLimit sql) ++ " LIMIT 0")
    ∧ (containsSubstr (pyLower (pyStrip sql)) "limit" = false →
        fallbackDryRun sql = rstripSemis sql ++ " LIMIT 0") := by
  refine ⟨rfl, fun o ho => ?_, fun orig full he => ?_,
    fun h => by simp [fallbackDryRun, h], fun h => by simp [fallbackDryRun, h]⟩
  · constructor <;> simp [validate_query, hge, hcn, hsel, ho]
  · refine ⟨?_, fun o ho₂ => ?_, fun e₂ he₂ => ?_⟩
    · rcases hexec₂ : (dmap eng.connStr).exec (fallbackDryRun sql) db
        with e₂' | o₂ <;>
        simp [validate_query, hge, hcn, hsel, he, hexec₂, PyErr.isSQLAlchemy]
    · simp [validate_query, hge, hcn, hsel, he, ho₂, PyErr.isSQLAlchemy]
    · constructor
      · simp [validate_query, hge, hcn, hsel, he, he₂, PyErr.isSQLAlchemy]
      · have : (validate_query dmap m sql c db).res = validateCatch e₂ := by
          simp [validate_query, hge, hcn, hsel, he, he₂, PyErr.isSQLAlchemy]
        rw [this]
        rcases e₂ with ⟨orig₂, full₂⟩ | msg₂ <;> simp [validateCatch]

/-- A driver that rejects the wrapped subquery form with a SQLAlchemy error
but accepts any other statement; over `σ := Nat`. -/
def noWrapDriver : Driver Nat :=
  { connect := Except.ok (),
    exec := fun s st =>
      if pyStartsWith s "SELECT * FROM (" then
        Except.error (PyErr.sqlalchemy (some "near \"(\": syntax error")
          "(sqlite3.OperationalError) near \"(\": syntax error")
      else
        Except.ok { state := st, rowcount := 0, colKeys := [], rows := [] },
    compile := fun _ => Except.ok (),
    inspect := fun _ => Except.ok [] }

/-- Witness for C6: against `noWrapDriver`, validating
`select * from t limit 5` first tries the wrapped form, then the fallback
with the `limit 5` stripped by substitution, and succeeds. -/
theorem validate_select_two_attempts_witness :
    (validate_query (fun _ => noWrapDriver) emptyMgr "select * from t limit 5"
        sqliteConn 0).events
      = [Ev.execStmt
           "SELECT * FROM (select * from t limit 5) AS validation_subquery LIMIT 0",
         Ev.execStmt "select * from t  LIMIT 0"]
    ∧ (validate_query (fun _ => noWrapDriver) emptyMgr "select * from t limit 5"
        sqliteConn 0).res = validSelectResult := by
  have h := validate_select_two_attempts (fun _ => noWrapDriver) emptyMgr
    "select * from t limit 5" sqliteConn 0 (Engine.mk "sqlite:///test.db")
    (Manager.mk [("c1", Engine.mk "sqlite:///test.db")]) (by decide) rfl rfl
  have h₂ := h.2.2.1 (some "near \"(\": syntax error")
    "(sqlite3.OperationalError) near \"(\": syntax error" rfl
  exact ⟨h₂.1, h₂.2.1 _ rfl⟩

/-- C7: for every DDL/other statement and every connector whose engine
resolves and connects, `execute_query` with `dry_run` refuses outright —
`success:false`, the explicit cannot-dry-run message, no statement executed,
committed state untouched — while without `dry_run` it executes the
statement and commits directly, returning `success:true`. -/
theorem execute_ddl_dry_run_rejected {σ : Type}
    (dmap : String → Driver σ) (m : Manager) (sql : String) (c : Connector)
    (lim : Nat) (db : σ) (eng : Engine) (m' : Manager)
    (hddl : classify sql = QueryType.DDL_OR_OTHER)
    (hge : get_engine m c.id c = Except.ok (eng, m'))
    (hcn : (dmap eng.connStr).connect = Except.ok ()) :
    (execute_query dmap m sql c lim true db).res.success = false
    ∧ (execute_query dmap m sql c lim true db).res.message
        = some "Dry-run mode is not supported for DDL queries"
    ∧ (execute_query dmap m sql c lim true db).events = []
    ∧ (execute_query dmap m sql c lim true db).db = db
    ∧ (∀ o, (dmap eng.connStr).exec sql db = Except.ok o →
        (execute_query dmap m sql c lim false db).res.success = true
        ∧ (execute_query dmap m sql c lim false db).events
            = [Ev.execStmt sql, Ev.commitTx]
        ∧ (execute_query dmap m sql c lim false db).db = o.state) := by
  refine ⟨?_, ?_, ?_, ?_, fun o ho => ?_⟩
  iterate 4 simp [execute_query, hge, hcn, hddl, ExecResult.base]
  simp [execute_query, hge, hcn, hddl, ExecResult.base, ho]

/-- Witness for C7: `CREATE TABLE t (x int)` with the all-succeeding driver
is refused under dry-run and commits (state `7` advances to `8`) without. -/
theorem execute_ddl_dry_run_rejected_witness :
    (execute_query okDmap emptyMgr "CREATE TABLE t (x int)" sqliteConn
        1000 true (7 : Nat)).res.success = false
    ∧ (execute_query okDmap emptyMgr "CREATE TABLE t (x int)" sqliteConn
        1000 false (7 : Nat)).db = 8 := by
  have h := execute_ddl_dry_run_rejected okDmap emptyMgr
    "CREATE TABLE t (x int)" sqliteConn 1000 (7 : Nat)
    (Engine.mk "sqlite:///test.db")
    (Manager.mk [("c1", Engine.mk "sqlite:///test.db")]) (by decide) rfl rfl
  exact ⟨h.1, (h.2.2.2.2 _ rfl).2.2⟩

/-- Appending cannot empty a nonempty string. -/
theorem string_append_ne_empty (a b : String) (ha : a ≠ "") : a ++ b ≠ "" := by
  rcases a with ⟨la⟩
  rcases b with ⟨lb⟩
  intro h
  apply ha
  have h' : la ++ lb = [] := congrArg String.data h
  have hla : la = [] := (List.append_eq_nil.mp h').1
  subst hla
  rfl

/-- A connector with an unsupported dialect. -/
def oracleConn : Connector :=
  { id := "c9", db_type := "oracle", host := "h", port := "1521",
    database := "db", username := "u", password := "p",
    connection_string := none }

/-- Counterexample to C4 as stated: `get_schema`'s `try` block is guarded
only by `except SQLAlchemyError`, so the non-SQLAlchemy `ValueError` that
`get_connection_string` raises for the unsupported dialect `oracle`
propagates to `get_schema`'s caller instead of being translated into a
result value. -/
theorem get_schema_propagates_counterexample :
    (get_schema okDmap emptyMgr oracleConn (0 : Nat)).1
      = Except.error (PyErr.otherExc "Unsupported database type: oracle") := by
  rfl

/-- C4 (amended): `validate_query`, `execute_query`, `test_connection` and
`generate_default_queries` translate every driver failure into a result
value with a `valid`/`success` flag and a non-empty message (their embedded
forms are total functions — no exception escapes); `get_schema` alone
translates only `SQLAlchemyError`s, propagating any other exception (such as
the unsupported-dialect `ValueError`) to the caller. In particular a
malformed statement such as `SELEKT * FROM t` (classified DDL/other) yields
`valid:false` from validate when the dialect rejects its compilation, and
`success:false` with a non-empty message from execute when the driver
rejects its execution. -/
theorem error_results_translated {σ : Type}
    (dmap : String → Driver σ) (m : Manager) (sql : String) (c : Connector)
    (db : σ) (eng : Engine) (m' : Manager)
    (hge : get_engine m c.id c = Except.ok (eng, m'))
    (hcn : (dmap eng.connStr).connect = Except.ok ()) :
    (∀ e, classify sql = QueryType.DDL_OR_OTHER →
        (dmap eng.connStr).compile sql = Except.error e →
        (validate_query dmap m sql c db).res.valid = false
        ∧ (validate_query dmap m sql c db).res.message
            = (validateCatch e).message
        ∧ (e.isSQLAlchemy = false → (validateCatch e).message ≠ "")
        ∧ (firstLine e.origOrStr ≠ "" → (validateCatch e).message ≠ ""))
    ∧ (∀ e, classify sql = QueryType.DDL_OR_OTHER →
        (dmap eng.connStr).exec sql db = Except.error e →
        (execute_query dmap m sql c 1000 false db).res.success = false
        ∧ ∃ msg, (execute_query dmap m sql c 1000 false db).res.message
            = some msg ∧ msg ≠ "")
    ∧ (∀ e, (dmap eng.connStr).exec "SELECT 1" db = Except.error e →
        (test_connection dmap m c db).1.success = false
        ∧ (test_connection dmap m c db).1.message
            = "Connection failed: " ++ e.str
        ∧ (test_connection dmap m c db).1.message ≠ "")
    ∧ (∀ (c₂ : Connector) e, get_engine m c₂.id c₂ = Except.error e →
        (e.isSQLAlchemy = true →
          (get_schema dmap m c₂ db).1 = Except.ok (schemaCatch e))
        ∧ (e.isSQLAlchemy = false →
          (get_schema dmap m c₂ db).1 = Except.error e)
        ∧ (e.isSQLAlchemy = false →
          (generate_default_queries dmap m c₂ db).1.success = false
          ∧ (generate_default_queries dmap m c₂ db).1.message
              = some ("Failed to generate default queries: " ++ e.str))) := by
  refine ⟨fun e hq hcp => ?_, fun e hq hex => ?_, fun e hex => ?_,
    fun c₂ e hge₂ => ?_⟩
  · have hres : (validate_query dmap m sql c db).res = validateCatch e := by
      simp [validate_query, hge, hcn, hq, hcp]
    refine ⟨?_, by rw [hres], fun hns => ?_, fun hfl => ?_⟩
    · rw [hres]
      rcases e with ⟨o₁, f₁⟩ | m₁ <;> simp [validateCatch]
    · rcases e with ⟨o₁, f₁⟩ | m₁
      · simp [PyErr.isSQLAlchemy] at hns
      · simpa [validateCatch] using
          string_append_ne_empty "Validation error: " m₁ (by decide)
    · rcases e with ⟨o₁, f₁⟩ | m₁
      · simpa [validateCatch, PyErr.origOrStr] using hfl
      · simpa [validateCatch] using
          string_append_ne_empty "Validation error: " m₁ (by decide)
  · have hres : (execute_query dmap m sql c 1000 false db).res
        = executeCatch e := by
      simp [execute_query, hge, hcn, hq, hex]
    rw [hres]
    rcases e with ⟨o₁, f₁⟩ | m₁
    · exact ⟨by simp [executeCatch, ExecResult.base],
        "Failed to execute query: "
          ++ firstLine (PyErr.sqlalchemy o₁ f₁).origOrStr,
        by simp [executeCatch, ExecResult.base],
        string_append_ne_empty "Failed to execute query: " _ (by decide)⟩
    · exact ⟨by simp [executeCatch, ExecResult.base],
        "Unexpected error: " ++ m₁,
        by simp [executeCatch, ExecResult.base],
        string_append_ne_empty "Unexpected error: " _ (by decide)⟩
  · refine ⟨?_, ?_, ?_⟩ <;>
      simp [test_connection, hge, hcn, hex]
    exact string_append_ne_empty "Connection failed: " _ (by decide)
  · refine ⟨fun hsa => ?_, fun hsa => ?_, fun hsa => ?_⟩
    · simp [get_schema, hge₂, hsa]
    · simp [get_schema, hge₂, hsa]
    · have hgs : get_schema dmap m c₂ db = (Except.error e, m) := by
        simp [get_schema, hge₂, hsa]
      constructor <;> simp [generate_default_queries, hgs]

/-- A driver whose execution and compilation reject every statement with a
sqlite syntax error; over `σ := Nat`. -/
def selektDriver : Driver Nat :=
  { connect := Except.ok (),
    exec := fun _ _ =>
      Except.error (PyErr.sqlalchemy (some "near \"SELEKT\": syntax error")
        "(sqlite3.OperationalError) near \"SELEKT\": syntax error"),
    compile := fun _ =>
      Except.error (PyErr.sqlalchemy (some "near \"SELEKT\": syntax error")
        "(sqlite3.OperationalError) near \"SELEKT\": syntax error"),
    inspect := fun _ => Except.ok [] }

/-- Witness for C4 (amended): `SELEKT * FROM t` against the rejecting driver
yields `valid:false` from validate and `success:false` from execute, while
`get_schema` on the `oracle` connector lets the dialect `ValueError`
escape. -/
theorem error_results_translated_witness :
    (validate_query (fun _ => selektDriver) emptyMgr "SELEKT * FROM t"
        sqliteConn 0).res.valid = false
    ∧ (execute_query (fun _ => selektDriver) emptyMgr "SELEKT * FROM t"
        sqliteConn 1000 false 0).res.success = false
    ∧ (get_schema (fun _ => selektDriver) emptyMgr oracleConn 0).1
        = Except.error (PyErr.otherExc "Unsupported database type: oracle") := by
  have h := error_results_translated (fun _ => selektDriver) emptyMgr
    "SELEKT * FROM t" sqliteConn 0 (Engine.mk "sqlite:///test.db")
    (Manager.mk [("c1", Engine.mk "sqlite:///test.db")]) rfl rfl
  exact ⟨(h.1 _ (by decide) rfl).1, (h.2.1 _ (by decide) rfl).1,
    (h.2.2.2 oracleConn
      (PyErr.otherExc "Unsupported database type: oracle") rfl).2.1 rfl⟩
